import Mathlib

/-!
Shallow embedding of the northfishclient backend cart / order core
(`routers/cart.py`, `routers/orders.py`, `models.py`).

Database rows become records, each table a list field of `State`, and every
router function a Lean function from a pre-state to a post-state paired with
an `Except` result.  In the source every `HTTPException` is raised before any
database write of the same request, so an error result is always paired with
the unchanged state.  SQLAlchemy `Float` prices are modelled as `Rat`;
Python's unbounded `int` quantities as `Int`.
-/

namespace NorthFish

/-- `models.Product`: id, name, description, price, image_url, weight,
category_id. -/
structure Product where
  id : Nat
  name : String
  description : String
  price : Rat
  image_url : String
  weight : String
  category_id : Nat
deriving Repr, DecidableEq

/-- `models.User` (fields beyond `id` are irrelevant to the cart/order flow
but kept so the frame claims speak about real records). -/
structure User where
  id : Nat
  username : String
  email : String
  phone : String
  full_name : String
  is_active : Bool
deriving Repr, DecidableEq

/-- `models.Cart`: one cart line. `quantity` is a plain integer column. -/
structure CartLine where
  id : Nat
  user_id : Nat
  product_id : Nat
  quantity : Int
deriving Repr, DecidableEq

/-- `models.Order`: id, user_id, total_price, status, created_at. -/
structure Order where
  id : Nat
  user_id : Nat
  total_price : Rat
  status : String
  created_at : Nat
deriving Repr, DecidableEq

/-- `models.Category`. -/
structure Category where
  id : Nat
  name : String
  slug : String
deriving Repr, DecidableEq

/-- The persisted database state: the five tables, plus a clock supplying
`func.now()` for `created_at` defaults. -/
structure State where
  products : List Product
  users : List User
  cart : List CartLine
  orders : List Order
  categories : List Category
  now : Nat
deriving Repr, DecidableEq

/-- `HTTPException(status_code, detail)`. -/
structure HTTPException where
  status_code : Nat
  detail : String
deriving Repr, DecidableEq

/-- Status code of a result, `none` on success.  A `ValidationError` surfaces
as status 400, a `NotFoundError` as status 404. -/
def errStatus {α : Type} : Except HTTPException α → Option Nat
  | .error e => some e.status_code
  | .ok _ => none

/-- `MAX_QUANTITY = 99` from `routers/cart.py`. -/
def MAX_QUANTITY : Int := 99

/-- `db.query(Product).filter(Product.id == pid).first()`. -/
def findProduct (s : State) (pid : Nat) : Option Product :=
  s.products.find? (fun p => p.id == pid)

/-- Mutating the ORM object returned by `.first()` updates exactly the first
row matching the filter. -/
def updateFirst (p : CartLine → Bool) (f : CartLine → CartLine) :
    List CartLine → List CartLine
  | [] => []
  | c :: cs => if p c then f c :: cs else c :: updateFirst p f cs

/-- `db.delete` of the object returned by `.first()` removes exactly the
first row matching the filter. -/
def removeFirst (p : CartLine → Bool) : List CartLine → List CartLine
  | [] => []
  | c :: cs => if p c then cs else c :: removeFirst p cs

/-- Primary-key autoincrement for the cart table. -/
def nextCartId (s : State) : Nat :=
  (s.cart.map (fun c => c.id)).foldr max 0 + 1

/-- Primary-key autoincrement for the orders table. -/
def nextOrderId (s : State) : Nat :=
  (s.orders.map (fun o => o.id)).foldr max 0 + 1

/-- `add_to_cart` (POST /cart/).  The request-schema validation layer is
external, so `quantity` ranges over all integers.  The user id is hardcoded
to 1 in the source. -/
def add_to_cart (s : State) (product_id : Nat) (quantity : Int) :
    State × Except HTTPException CartLine :=
  if quantity > MAX_QUANTITY then
    (s, .error ⟨400, "Количество товара не может превышать 99"⟩)
  else
    match findProduct s product_id with
    | none => (s, .error ⟨404, "Товар не найден"⟩)
    | some _ =>
      let user_id := 1
      match s.cart.find? (fun c => c.user_id == user_id && c.product_id == product_id) with
      | some existing_item =>
        let new_quantity := existing_item.quantity + quantity
        if new_quantity > MAX_QUANTITY then
          (s, .error ⟨400, "Общее количество товара не может превышать 99"⟩)
        else
          let updated : CartLine := { existing_item with quantity := new_quantity }
          let cart' := updateFirst
            (fun c => c.user_id == user_id && c.product_id == product_id)
            (fun c => { c with quantity := new_quantity }) s.cart
          ({ s with cart := cart' }, .ok updated)
      | none =>
        let new_cart_item : CartLine :=
          { id := nextCartId s, user_id := user_id,
            product_id := product_id, quantity := quantity }
        ({ s with cart := s.cart ++ [new_cart_item] }, .ok new_cart_item)

/-- `get_cart` (GET /cart/): all cart lines of the hardcoded user 1. -/
def get_cart (s : State) : List CartLine :=
  s.cart.filter (fun c => c.user_id == 1)

/-- `update_cart_quantity` (PUT /cart/\x7bcart_id\x7d). -/
def update_cart_quantity (s : State) (cart_id : Nat) (quantity : Int) :
    State × Except HTTPException CartLine :=
  if quantity < 1 then
    (s, .error ⟨400, "Количество товара должно быть не менее 1"⟩)
  else if quantity > MAX_QUANTITY then
    (s, .error ⟨400, "Количество товара не может превышать 99"⟩)
  else
    let user_id := 1
    match s.cart.find? (fun c => c.id == cart_id && c.user_id == user_id) with
    | none => (s, .error ⟨404, "Товар в корзине не найден"⟩)
    | some cart_item =>
      let updated : CartLine := { cart_item with quantity := quantity }
      let cart' := updateFirst
        (fun c => c.id == cart_id && c.user_id == user_id)
        (fun c => { c with quantity := quantity }) s.cart
      ({ s with cart := cart' }, .ok updated)

/-- `remove_from_cart` (DELETE /cart/\x7bcart_id\x7d). -/
def remove_from_cart (s : State) (cart_id : Nat) :
    State × Except HTTPException String :=
  let user_id := 1
  match s.cart.find? (fun c => c.id == cart_id && c.user_id == user_id) with
  | none => (s, .error ⟨404, "Товар в корзине не найден"⟩)
  | some _ =>
    let cart' := removeFirst
      (fun c => c.id == cart_id && c.user_id == user_id) s.cart
    ({ s with cart := cart' }, .ok "Товар удален из корзины")

/-- `get_cart_count` (GET /cart/count): row count, not quantity sum. -/
def get_cart_count (s : State) : Nat :=
  (s.cart.filter (fun c => c.user_id == 1)).length

/-- `item.product.price * item.quantity` for one cart line; the foreign key
guarantees the product row exists (a missing row would crash the source, the
`0` branch is never taken under referential integrity). -/
def linePrice (s : State) (c : CartLine) : Rat :=
  match findProduct s c.product_id with
  | some p => p.price * (c.quantity : Rat)
  | none => 0

/-- `sum(item.product.price * item.quantity for item in items)`. -/
def totalOfLines (s : State) (items : List CartLine) : Rat :=
  (items.map (linePrice s)).sum

/-- `create_order` (POST /orders/).  Note the source queries and clears the
whole cart table without a user filter, and commits the order before the
cart delete. -/
def create_order (s : State) : State × Except HTTPException Order :=
  let cart_items := s.cart
  if cart_items.isEmpty then
    (s, .error ⟨400, "Cart is empty"⟩)
  else
    let total_price := totalOfLines s cart_items
    let order : Order :=
      { id := nextOrderId s, user_id := 1, total_price := total_price,
        status := "pending", created_at := s.now }
    ({ s with orders := s.orders ++ [order], cart := [] }, .ok order)

/-- Where a database fault strikes during `create_order`: at the first
`db.commit()` (order insert) or at the second (cart delete). -/
inductive Fault where
  | none
  | atFirstCommit
  | atSecondCommit
deriving Repr, DecidableEq

/-- `create_order` with a fault injected at a commit boundary.  The source
runs TWO transactions: `db.add(order); db.commit()` then
`db.query(Cart).delete(); db.commit()`.  A fault at the first commit rolls
the insert back; a fault at the second rolls only the delete back, the
already committed order stays. -/
def create_order_faulty (s : State) (f : Fault) :
    State × Except HTTPException Order :=
  let cart_items := s.cart
  if cart_items.isEmpty then
    (s, .error ⟨400, "Cart is empty"⟩)
  else
    let total_price := totalOfLines s cart_items
    let order : Order :=
      { id := nextOrderId s, user_id := 1, total_price := total_price,
        status := "pending", created_at := s.now }
    match f with
    | .atFirstCommit => (s, .error ⟨500, "database failure"⟩)
    | .atSecondCommit =>
        ({ s with orders := s.orders ++ [order] }, .error ⟨500, "database failure"⟩)
    | .none =>
        ({ s with orders := s.orders ++ [order], cart := [] }, .ok order)

/-- `get_orders` (GET /orders/): `db.query(Order).all()`, no user filter. -/
def get_orders (s : State) : List Order :=
  s.orders

/-- The cart-quantity invariant of the spec: every stored line has quantity
in [1, 99]. -/
def CartInv (s : State) : Prop :=
  ∀ c ∈ s.cart, 1 ≤ c.quantity ∧ c.quantity ≤ 99

instance (s : State) : Decidable (CartInv s) := by
  unfold CartInv; infer_instance

/-- Spec-side definition for C4, following the spec's words: the sum of
(product price × quantity) over the lines of the GIVEN user only. -/
def userCartTotal (s : State) (uid : Nat) : Rat :=
  totalOfLines s (s.cart.filter (fun c => c.user_id == uid))

/-! ### Concrete fixtures used by witnesses and counterexamples -/

/-- A catalog product (price 10). -/
def fishProduct : Product :=
  { id := 1, name := "Salmon", description := "", price := 10,
    image_url := "", weight := "1 kg", category_id := 1 }

/-- A state with one product and empty cart/orders. -/
def baseState : State :=
  { products := [fishProduct], users := [], cart := [], orders := [],
    categories := [], now := 0 }

/-- A cart line of the hardcoded user 1 for product 1, quantity 2. -/
def line1 : CartLine := { id := 1, user_id := 1, product_id := 1, quantity := 2 }

/-- A state whose cart holds exactly `line1`. -/
def oneLineState : State := { baseState with cart := [line1] }

/-- A cart line belonging to a DIFFERENT user (user 2). -/
def otherUserLine : CartLine := { id := 1, user_id := 2, product_id := 1, quantity := 1 }

/-- A state where user 1's cart is empty but user 2 has a line. -/
def otherUserState : State := { baseState with cart := [otherUserLine] }

/-- A state where both user 1 and user 2 have a cart line. -/
def mixedCartState : State :=
  { baseState with cart := [line1, { id := 2, user_id := 2, product_id := 1, quantity := 1 }] }

/-- An order owned by user 2. -/
def foreignOrder : Order :=
  { id := 1, user_id := 2, total_price := 5, status := "pending", created_at := 0 }

/-- A state whose order store holds only user 2's order. -/
def foreignOrderState : State := { baseState with orders := [foreignOrder] }

/-! ### Helper lemmas on `updateFirst`, `removeFirst`, `List.find?` -/

theorem updateFirst_append_of_not (p : CartLine → Bool) (f : CartLine → CartLine)
    (l1 l2 : List CartLine) (h : ∀ c ∈ l1, p c = false) :
    updateFirst p f (l1 ++ l2) = l1 ++ updateFirst p f l2 := by
  induction l1 with
  | nil => rfl
  | cons c cs ih =>
    have hc : p c = false := h c (List.mem_cons_self c cs)
    simp only [List.cons_append, updateFirst, hc, Bool.false_eq_true, if_false]
    exact congrArg (List.cons c) (ih (fun x hx => h x (List.mem_cons_of_mem c hx)))

theorem find?_append_of_not (p : CartLine → Bool) (l1 l2 : List CartLine)
    (h : ∀ c ∈ l1, p c = false) : (l1 ++ l2).find? p = l2.find? p := by
  induction l1 with
  | nil => rfl
  | cons c cs ih =>
    have hc : p c = false := h c (List.mem_cons_self c cs)
    simp only [List.cons_append, List.find?, hc]
    exact ih (fun x hx => h x (List.mem_cons_of_mem c hx))

theorem mem_updateFirst (p : CartLine → Bool) (f : CartLine → CartLine)
    (l : List CartLine) (c' : CartLine) (h : c' ∈ updateFirst p f l) :
    c' ∈ l ∨ ∃ c, c ∈ l ∧ p c = true ∧ c' = f c := by
  induction l with
  | nil => cases h
  | cons c cs ih =>
    by_cases hc : p c = true
    · simp only [updateFirst, hc, if_true] at h
      rcases List.mem_cons.mp h with h1 | h1
      · exact Or.inr ⟨c, List.mem_cons_self c cs, hc, h1⟩
      · exact Or.inl (List.mem_cons_of_mem c h1)
    · simp only [updateFirst, hc, if_false] at h
      rcases List.mem_cons.mp h with h1 | h1
      · exact Or.inl (h1 ▸ List.mem_cons_self c cs)
      · rcases ih h1 with h2 | ⟨d, hd, hpd, he⟩
        · exact Or.inl (List.mem_cons_of_mem c h2)
        · exact Or.inr ⟨d, List.mem_cons_of_mem c hd, hpd, he⟩

theorem mem_removeFirst (p : CartLine → Bool) (l : List CartLine) (c' : CartLine)
    (h : c' ∈ removeFirst p l) : c' ∈ l := by
  induction l with
  | nil => cases h
  | cons c cs ih =>
    by_cases hc : p c = true
    · simp only [removeFirst, hc, if_true] at h
      exact List.mem_cons_of_mem c h
    · simp only [removeFirst, hc, if_false] at h
      rcases List.mem_cons.mp h with h1 | h1
      · exact h1 ▸ List.mem_cons_self c cs
      · exact List.mem_cons_of_mem c (ih h1)

theorem find?_updateFirst_same (p : CartLine → Bool) (f : CartLine → CartLine)
    (hf : ∀ c, p (f c) = p c) (l : List CartLine) :
    (updateFirst p f l).find? p = (l.find? p).map f := by
  induction l with
  | nil => rfl
  | cons c cs ih =>
    by_cases hc : p c = true
    · have h1 : updateFirst p f (c :: cs) = f c :: cs := by
        simp [updateFirst, hc]
      rw [h1, List.find?_cons_of_pos _ (by rw [hf c]; exact hc),
        List.find?_cons_of_pos _ hc]
      rfl
    · have hc' : p c = false := Bool.eq_false_iff.mpr hc
      have h1 : updateFirst p f (c :: cs) = c :: updateFirst p f cs := by
        simp [updateFirst, hc']
      rw [h1, List.find?_cons_of_neg _ hc, List.find?_cons_of_neg _ hc]
      exact ih

theorem filter_not_updateFirst (p : CartLine → Bool) (f : CartLine → CartLine)
    (hf : ∀ c, p (f c) = p c) (l : List CartLine) :
    (updateFirst p f l).filter (fun c => !p c) = l.filter (fun c => !p c) := by
  induction l with
  | nil => rfl
  | cons c cs ih =>
    by_cases hc : p c = true
    · have h1 : updateFirst p f (c :: cs) = f c :: cs := by
        simp [updateFirst, hc]
      rw [h1, List.filter_cons_of_neg (by simp [hf c, hc]),
        List.filter_cons_of_neg (by simp [hc])]
    · have hc' : p c = false := Bool.eq_false_iff.mpr hc
      have h1 : updateFirst p f (c :: cs) = c :: updateFirst p f cs := by
        simp [updateFirst, hc']
      rw [h1, List.filter_cons_of_pos (by simp [hc']),
        List.filter_cons_of_pos (by simp [hc'])]
      rw [ih]

theorem filter_not_removeFirst (p : CartLine → Bool) (l : List CartLine) :
    (removeFirst p l).filter (fun c => !p c) = l.filter (fun c => !p c) := by
  induction l with
  | nil => rfl
  | cons c cs ih =>
    by_cases hc : p c = true
    · have h1 : removeFirst p (c :: cs) = cs := by
        simp [removeFirst, hc]
      rw [h1, List.filter_cons_of_neg (by simp [hc])]
    · have hc' : p c = false := Bool.eq_false_iff.mpr hc
      have h1 : removeFirst p (c :: cs) = c :: removeFirst p cs := by
        simp [removeFirst, hc']
      rw [h1, List.filter_cons_of_pos (by simp [hc']),
        List.filter_cons_of_pos (by simp [hc'])]
      rw [ih]

/-! ### Post-state case analyses of the three cart mutations -/

theorem add_to_cart_cases (s : State) (pid : Nat) (q : Int) :
    (add_to_cart s pid q).1 = s ∨
    (∃ e : CartLine,
      s.cart.find? (fun c => c.user_id == 1 && c.product_id == pid) = some e ∧
      ¬ e.quantity + q > MAX_QUANTITY ∧
      (add_to_cart s pid q).1 =
        { s with cart := (updateFirst
            (fun c => c.user_id == 1 && c.product_id == pid)
            (fun c => { c with quantity := e.quantity + q }) s.cart) }) ∨
    (s.cart.find? (fun c => c.user_id == 1 && c.product_id == pid) = none ∧
      ¬ q > MAX_QUANTITY ∧
      (add_to_cart s pid q).1 =
        { s with cart := s.cart ++
            [{ id := nextCartId s, user_id := 1, product_id := pid, quantity := q }] }) := by
  by_cases hq : q > MAX_QUANTITY
  · left
    simp [add_to_cart, hq]
  · cases hprod : findProduct s pid with
    | none =>
      left
      simp [add_to_cart, hq, hprod]
    | some prod =>
      cases hfind : s.cart.find? (fun c => c.user_id == 1 && c.product_id == pid) with
      | some e =>
        by_cases hnq : e.quantity + q > MAX_QUANTITY
        · left
          simp [add_to_cart, hq, hprod, hfind, hnq]
        · right; left
          exact ⟨e, rfl, hnq, by simp [add_to_cart, hq, hprod, hfind, hnq]⟩
      | none =>
        right; right
        exact ⟨rfl, hq, by simp [add_to_cart, hq, hprod, hfind]⟩

theorem update_cart_quantity_cases (s : State) (cid : Nat) (q : Int) :
    (update_cart_quantity s cid q).1 = s ∨
    (¬ q < 1 ∧ ¬ q > MAX_QUANTITY ∧
      (update_cart_quantity s cid q).1 =
        { s with cart := (updateFirst
            (fun c => c.id == cid && c.user_id == 1)
            (fun c => { c with quantity := q }) s.cart) }) := by
  by_cases h1 : q < 1
  · left
    simp [update_cart_quantity, h1]
  · by_cases h2 : q > MAX_QUANTITY
    · left
      simp [update_cart_quantity, h1, h2]
    · cases hfind : s.cart.find? (fun c => c.id == cid && c.user_id == 1) with
      | none =>
        left
        simp [update_cart_quantity, h1, h2, hfind]
      | some e =>
        right
        exact ⟨h1, h2, by simp [update_cart_quantity, h1, h2, hfind]⟩

theorem remove_from_cart_cases (s : State) (cid : Nat) :
    (remove_from_cart s cid).1 = s ∨
    (remove_from_cart s cid).1 =
      { s with cart := removeFirst (fun c => c.id == cid && c.user_id == 1) s.cart } := by
  cases hfind : s.cart.find? (fun c => c.id == cid && c.user_id == 1) with
  | none =>
    left
    simp [remove_from_cart, hfind]
  | some e =>
    right
    simp [remove_from_cart, hfind]

/-! ### Claim C1 — checkout atomicity -/

/-- C1: the claim fails on the code.  `create_order` runs TWO separate
transactions (order insert committed first, cart delete committed second);
a database fault at the second commit leaves the order persisted while every
cart line remains — the outcome the claim says is unreachable.  Evaluated at
the concrete failing input `oneLineState`. -/
theorem checkout_fault_keeps_order_and_cart :
    (create_order_faulty oneLineState Fault.atSecondCommit).1.orders.length =
      oneLineState.orders.length + 1 ∧
    (create_order_faulty oneLineState Fault.atSecondCommit).1.cart =
      oneLineState.cart ∧
    oneLineState.cart ≠ [] ∧
    errStatus (create_order_faulty oneLineState Fault.atSecondCommit).2 = some 500 := by
  decide

/-! ### Claim C3 — checkout empty-cart failure -/

/-- C3 counterexample: user 1's cart has zero lines, yet Checkout does not
fail — `create_order` queries the whole cart table with no user filter, and
user 2's line makes it non-empty. -/
theorem checkout_ignores_cart_owner :
    get_cart otherUserState = [] ∧
    errStatus (create_order otherUserState).2 = none := by
  decide

/-- C3 (amended): Checkout fails with ValidationError "Cart is empty" iff
the ENTIRE cart store (all users) has zero lines; on that failure no order
is created and the state is unchanged; on a non-empty cart store it does not
fail.  (The source applies no user filter.) -/
theorem checkout_empty_iff_store_empty (s : State) :
    ((create_order s).2 = .error ⟨400, "Cart is empty"⟩ ↔ s.cart = []) ∧
    (s.cart = [] → (create_order s).1 = s) ∧
    (s.cart ≠ [] → errStatus (create_order s).2 = none) := by
  refine ⟨⟨?_, ?_⟩, ?_, ?_⟩
  · intro h
    by_cases he : s.cart = []
    · exact he
    · exfalso
      have hne : ¬ s.cart.isEmpty = true := by
        simp [List.isEmpty_iff, he]
      simp [create_order, hne] at h
  · intro he
    simp [create_order, he]
  · intro he
    simp [create_order, he]
  · intro he
    have hne : ¬ s.cart.isEmpty = true := by
      simp [List.isEmpty_iff, he]
    simp [create_order, hne, errStatus]

/-- Witness for `checkout_empty_iff_store_empty` at the empty state and at
a one-line state. -/
theorem checkout_empty_iff_store_empty_witness :
    (create_order baseState).2 = .error ⟨400, "Cart is empty"⟩ ∧
    (create_order baseState).1 = baseState ∧
    errStatus (create_order oneLineState).2 = none :=
  ⟨(checkout_empty_iff_store_empty baseState).1.mpr rfl,
   (checkout_empty_iff_store_empty baseState).2.1 rfl,
   (checkout_empty_iff_store_empty oneLineState).2.2 (by decide)⟩

/-! ### Claim C8 — ListOrders scoping -/

/-- C8 counterexample: the order store holds only user 2's order, yet
`get_orders` returns it — the source runs `db.query(Order).all()` with no
user filter, so a returned order need not belong to the requesting user. -/
theorem list_orders_returns_foreign_order :
    get_orders foreignOrderState = [foreignOrder] ∧
    foreignOrder.user_id ≠ 1 := by
  constructor
  · rfl
  · decide

/-- C8 (amended): ListOrders returns exactly the orders of the ENTIRE order
store: every order of the given user is returned, but so is every order of
every other user (no user filter, no ordering guarantee). -/
theorem list_orders_unfiltered (s : State) (uid : Nat) :
    (∀ o ∈ s.orders, o.user_id = uid → o ∈ get_orders s) ∧
    (∀ o ∈ get_orders s, o ∈ s.orders) :=
  ⟨fun o ho _ => ho, fun o ho => ho⟩

/-- Witness for `list_orders_unfiltered`: user 2's own order is returned. -/
theorem list_orders_unfiltered_witness :
    foreignOrder ∈ get_orders foreignOrderState :=
  (list_orders_unfiltered foreignOrderState 2).1 foreignOrder
    (by simp [foreignOrderState, baseState]) rfl

/-! ### Claim C9 — validation precedes existence checks -/

/-- C9: the quantity-bound check runs before any existence lookup, for every
state — in particular for states where the product or the cart line does not
exist: AddItem with quantity > 99 and UpdateQuantity with quantity < 1 or
> 99 always fail with ValidationError (status 400, never 404), leaving the
state unchanged. -/
theorem quantity_check_precedes_existence (s : State) (pid cid : Nat) (q : Int) :
    (q > 99 →
      errStatus (add_to_cart s pid q).2 = some 400 ∧
      (add_to_cart s pid q).1 = s) ∧
    ((q < 1 ∨ q > 99) →
      errStatus (update_cart_quantity s cid q).2 = some 400 ∧
      (update_cart_quantity s cid q).1 = s) := by
  constructor
  · intro hq
    have h : q > MAX_QUANTITY := by simp only [MAX_QUANTITY]; omega
    simp [add_to_cart, h, errStatus]
  · intro hq
    rcases hq with h | h
    · simp [update_cart_quantity, h, errStatus]
    · have h1 : ¬ q < 1 := by omega
      have h2 : q > MAX_QUANTITY := by simp only [MAX_QUANTITY]; omega
      simp [update_cart_quantity, h1, h2, errStatus]

/-- Witness for `quantity_check_precedes_existence`: product 42 and cart
line 7 do not exist in `baseState`, yet both calls return 400, not 404. -/
theorem quantity_check_precedes_existence_witness :
    (errStatus (add_to_cart baseState 42 100).2 = some 400 ∧
      (add_to_cart baseState 42 100).1 = baseState) ∧
    (errStatus (update_cart_quantity baseState 7 0).2 = some 400 ∧
      (update_cart_quantity baseState 7 0).1 = baseState) :=
  ⟨(quantity_check_precedes_existence baseState 42 7 100).1 (by decide),
   (quantity_check_precedes_existence baseState 42 7 0).2 (Or.inl (by decide))⟩

/-! ### Claim C2 — quantity invariant -/

/-- C2 counterexample: with schema validation external, `add_to_cart` checks
only the upper bound — adding quantity 0 of an existing product to an
invariant-satisfying state succeeds and stores a line with quantity 0,
outside [1, 99]. -/
theorem add_zero_breaks_invariant :
    CartInv baseState ∧
    errStatus (add_to_cart baseState 1 0).2 = none ∧
    ¬ CartInv (add_to_cart baseState 1 0).1 := by
  decide

/-- C2 (amended): the quantity invariant [1, 99] is preserved by
UpdateQuantity, RemoveItem and Checkout for every integer argument, and by
AddItem for every quantity argument ≥ 1; AddItem with quantity ≤ 0 is the
one core path that can break it (the external schema layer is what rules it
out). -/
theorem cart_quantity_invariant_preserved (s : State) (hs : CartInv s) :
    (∀ pid : Nat, ∀ q : Int, 1 ≤ q → CartInv (add_to_cart s pid q).1) ∧
    (∀ cid : Nat, ∀ q : Int, CartInv (update_cart_quantity s cid q).1) ∧
    (∀ cid : Nat, CartInv (remove_from_cart s cid).1) ∧
    CartInv (create_order s).1 := by
  refine ⟨?_, ?_, ?_, ?_⟩
  · intro pid q hq
    rcases add_to_cart_cases s pid q with h | ⟨e, hfind, hnq, h⟩ | ⟨_, hq99, h⟩
    · rw [h]; exact hs
    · rw [h]
      intro c hc
      simp only at hc
      rcases mem_updateFirst _ _ _ c hc with hmem | ⟨d, _, _, he⟩
      · exact hs c hmem
      · subst he
        have he' := hs e (List.mem_of_find?_eq_some hfind)
        simp only [MAX_QUANTITY] at hnq
        refine ⟨?_, ?_⟩
        · show (1 : Int) ≤ e.quantity + q
          omega
        · show e.quantity + q ≤ 99
          omega
    · rw [h]
      intro c hc
      simp only [List.mem_append, List.mem_singleton] at hc
      rcases hc with hmem | rfl
      · exact hs c hmem
      · simp only [MAX_QUANTITY] at hq99
        refine ⟨hq, ?_⟩
        show q ≤ 99
        omega
  · intro cid q
    rcases update_cart_quantity_cases s cid q with h | ⟨h1, h2, h⟩
    · rw [h]; exact hs
    · rw [h]
      intro c hc
      simp only at hc
      rcases mem_updateFirst _ _ _ c hc with hmem | ⟨d, _, _, he⟩
      · exact hs c hmem
      · subst he
        simp only [MAX_QUANTITY] at h2
        refine ⟨?_, ?_⟩
        · show (1 : Int) ≤ q
          omega
        · show q ≤ 99
          omega
  · intro cid
    rcases remove_from_cart_cases s cid with h | h
    · rw [h]; exact hs
    · rw [h]
      intro c hc
      exact hs c (mem_removeFirst _ _ _ hc)
  · by_cases he : s.cart.isEmpty = true
    · have : (create_order s).1 = s := by simp [create_order, he]
      rw [this]; exact hs
    · have : (create_order s).1.cart = [] := by simp [create_order, he]
      intro c hc
      rw [this] at hc
      cases hc

/-- Witness for `cart_quantity_invariant_preserved` at `oneLineState`. -/
theorem cart_quantity_invariant_preserved_witness :
    CartInv oneLineState ∧
    CartInv (add_to_cart oneLineState 1 5).1 ∧
    CartInv (update_cart_quantity oneLineState 1 7).1 ∧
    CartInv (remove_from_cart oneLineState 1).1 ∧
    CartInv (create_order oneLineState).1 :=
  ⟨by decide,
   (cart_quantity_invariant_preserved oneLineState (by decide)).1 1 5 (by decide),
   (cart_quantity_invariant_preserved oneLineState (by decide)).2.1 1 7,
   (cart_quantity_invariant_preserved oneLineState (by decide)).2.2.1 1,
   (cart_quantity_invariant_preserved oneLineState (by decide)).2.2.2⟩

/-! ### Claim C10 — frame of the cart mutations -/

/-- C10: AddItem, UpdateQuantity and RemoveItem touch at most the single
targeted cart line — every line outside the target (the (user 1, product)
line for AddItem, the line with the given id owned by user 1 for the other
two) is preserved — and none of them writes the Product, User, Order or
Category stores; this holds on success and on every failure. -/
theorem cart_ops_frame (s : State) (pid cid1 cid2 : Nat) (q1 q2 : Int) :
    ((add_to_cart s pid q1).1.products = s.products ∧
     (add_to_cart s pid q1).1.users = s.users ∧
     (add_to_cart s pid q1).1.orders = s.orders ∧
     (add_to_cart s pid q1).1.categories = s.categories ∧
     (add_to_cart s pid q1).1.cart.filter
         (fun c => !(c.user_id == 1 && c.product_id == pid)) =
       s.cart.filter (fun c => !(c.user_id == 1 && c.product_id == pid))) ∧
    ((update_cart_quantity s cid1 q2).1.products = s.products ∧
     (update_cart_quantity s cid1 q2).1.users = s.users ∧
     (update_cart_quantity s cid1 q2).1.orders = s.orders ∧
     (update_cart_quantity s cid1 q2).1.categories = s.categories ∧
     (update_cart_quantity s cid1 q2).1.cart.filter
         (fun c => !(c.id == cid1 && c.user_id == 1)) =
       s.cart.filter (fun c => !(c.id == cid1 && c.user_id == 1))) ∧
    ((remove_from_cart s cid2).1.products = s.products ∧
     (remove_from_cart s cid2).1.users = s.users ∧
     (remove_from_cart s cid2).1.orders = s.orders ∧
     (remove_from_cart s cid2).1.categories = s.categories ∧
     (remove_from_cart s cid2).1.cart.filter
         (fun c => !(c.id == cid2 && c.user_id == 1)) =
       s.cart.filter (fun c => !(c.id == cid2 && c.user_id == 1))) := by
  refine ⟨?_, ?_, ?_⟩
  · rcases add_to_cart_cases s pid q1 with h | ⟨e, _, _, h⟩ | ⟨_, _, h⟩
    · rw [h]; exact ⟨rfl, rfl, rfl, rfl, rfl⟩
    · rw [h]
      exact ⟨rfl, rfl, rfl, rfl,
        filter_not_updateFirst (fun c => c.user_id == 1 && c.product_id == pid)
          (fun c => { c with quantity := e.quantity + q1 }) (fun c => rfl) s.cart⟩
    · rw [h]
      refine ⟨rfl, rfl, rfl, rfl, ?_⟩
      rw [List.filter_append]
      simp
  · rcases update_cart_quantity_cases s cid1 q2 with h | ⟨_, _, h⟩
    · rw [h]; exact ⟨rfl, rfl, rfl, rfl, rfl⟩
    · rw [h]
      exact ⟨rfl, rfl, rfl, rfl,
        filter_not_updateFirst (fun c => c.id == cid1 && c.user_id == 1)
          (fun c => { c with quantity := q2 }) (fun c => rfl) s.cart⟩
  · rcases remove_from_cart_cases s cid2 with h | h
    · rw [h]; exact ⟨rfl, rfl, rfl, rfl, rfl⟩
    · rw [h]
      exact ⟨rfl, rfl, rfl, rfl,
        filter_not_removeFirst (fun c => c.id == cid2 && c.user_id == 1) s.cart⟩

/-! ### Claim C7 — UpdateQuantity contract -/

/-- C7: UpdateQuantity fails with ValidationError (400) whenever the
quantity is outside [1, 99] (in particular for 0 and 100) leaving the state
unchanged; fails with NotFoundError (404) when no cart line with that id
belongs to user 1; and for every quantity in [1, 99] on an owned line it
succeeds and overwrites the stored quantity with the given value, with no
merge with the old value. -/
theorem update_quantity_contract (s : State) (cid : Nat) (q : Int) :
    ((q < 1 ∨ q > 99) →
      (update_cart_quantity s cid q).1 = s ∧
      errStatus (update_cart_quantity s cid q).2 = some 400) ∧
    (1 ≤ q → q ≤ 99 →
      s.cart.find? (fun c => c.id == cid && c.user_id == 1) = none →
      (update_cart_quantity s cid q).1 = s ∧
      errStatus (update_cart_quantity s cid q).2 = some 404) ∧
    (∀ item : CartLine, 1 ≤ q → q ≤ 99 →
      s.cart.find? (fun c => c.id == cid && c.user_id == 1) = some item →
      (update_cart_quantity s cid q).2 = .ok { item with quantity := q } ∧
      (update_cart_quantity s cid q).1.cart.find?
          (fun c => c.id == cid && c.user_id == 1) = some { item with quantity := q }) := by
  refine ⟨?_, ?_, ?_⟩
  · intro hq
    rcases hq with h | h
    · simp [update_cart_quantity, h, errStatus]
    · have h1 : ¬ q < 1 := by omega
      have h2 : q > MAX_QUANTITY := by simp only [MAX_QUANTITY]; omega
      simp [update_cart_quantity, h1, h2, errStatus]
  · intro h1 h2 hfind
    have h1' : ¬ q < 1 := by omega
    have h2' : ¬ q > MAX_QUANTITY := by simp only [MAX_QUANTITY]; omega
    simp [update_cart_quantity, h1', h2', hfind, errStatus]
  · intro item h1 h2 hfind
    have h1' : ¬ q < 1 := by omega
    have h2' : ¬ q > MAX_QUANTITY := by simp only [MAX_QUANTITY]; omega
    constructor
    · simp [update_cart_quantity, h1', h2', hfind]
    · have hstate : (update_cart_quantity s cid q).1.cart =
          updateFirst (fun c => c.id == cid && c.user_id == 1)
            (fun c => { c with quantity := q }) s.cart := by
        simp [update_cart_quantity, h1', h2', hfind]
      rw [hstate, find?_updateFirst_same (fun c => c.id == cid && c.user_id == 1)
        (fun c => { c with quantity := q }) (fun c => rfl) s.cart, hfind]
      rfl

/-- Witness for `update_quantity_contract`: quantity 0 and 100 both fail
with 400 on the owned line, quantity 7 on a missing line fails with 404,
and quantity 7 on the owned line overwrites the stored quantity 2. -/
theorem update_quantity_contract_witness :
    ((update_cart_quantity oneLineState 1 0).1 = oneLineState ∧
      errStatus (update_cart_quantity oneLineState 1 0).2 = some 400) ∧
    ((update_cart_quantity oneLineState 1 100).1 = oneLineState ∧
      errStatus (update_cart_quantity oneLineState 1 100).2 = some 400) ∧
    ((update_cart_quantity oneLineState 5 7).1 = oneLineState ∧
      errStatus (update_cart_quantity oneLineState 5 7).2 = some 404) ∧
    ((update_cart_quantity oneLineState 1 7).2 = .ok { line1 with quantity := 7 } ∧
      (update_cart_quantity oneLineState 1 7).1.cart.find?
          (fun c => c.id == 1 && c.user_id == 1) = some { line1 with quantity := 7 }) :=
  ⟨(update_quantity_contract oneLineState 1 0).1 (Or.inl (by decide)),
   (update_quantity_contract oneLineState 1 100).1 (Or.inr (by decide)),
   (update_quantity_contract oneLineState 5 7).2.1 (by decide) (by decide) (by decide),
   (update_quantity_contract oneLineState 1 7).2.2 line1 (by decide) (by decide) (by decide)⟩

/-! ### Claims C5 and C6 — adding the same product twice -/

/-- Adding a quantity within bounds of an existing product to a cart holding
no line for (user 1, that product) appends one fresh line. -/
theorem add_to_cart_fresh (s : State) (pid : Nat) (q : Int) (prod : Product)
    (hprod : findProduct s pid = some prod)
    (hno : ∀ c ∈ s.cart, (c.user_id == 1 && c.product_id == pid) = false)
    (hq : ¬ q > MAX_QUANTITY) :
    add_to_cart s pid q =
      ({ s with cart := (s.cart ++
          [{ id := nextCartId s, user_id := 1, product_id := pid, quantity := q }]) },
       .ok { id := nextCartId s, user_id := 1, product_id := pid, quantity := q }) := by
  have hfind : s.cart.find? (fun c => c.user_id == 1 && c.product_id == pid) = none :=
    List.find?_eq_none.mpr (fun x hx => by simp [hno x hx])
  simp [add_to_cart, hq, hprod, hfind]

/-- C5: for quantities q1, q2 ≥ 1 with q1 + q2 ≤ 99, adding q1 of an
existing product to a cart with no line for (user 1, product) and then
adding q2 of the same product succeeds both times and leaves exactly one
cart line for (user 1, product), with quantity q1 + q2. -/
theorem add_then_add_merges (s : State) (pid : Nat) (q1 q2 : Int)
    (hp : (findProduct s pid).isSome = true)
    (hno : ∀ c ∈ s.cart, (c.user_id == 1 && c.product_id == pid) = false)
    (h1 : 1 ≤ q1) (h2 : 1 ≤ q2) (hsum : q1 + q2 ≤ 99) :
    errStatus (add_to_cart s pid q1).2 = none ∧
    errStatus (add_to_cart (add_to_cart s pid q1).1 pid q2).2 = none ∧
    ((add_to_cart (add_to_cart s pid q1).1 pid q2).1.cart.filter
        (fun c => c.user_id == 1 && c.product_id == pid)) =
      [{ id := nextCartId s, user_id := 1, product_id := pid, quantity := q1 + q2 }] := by
  obtain ⟨prod, hprod⟩ := Option.isSome_iff_exists.mp hp
  have hq1 : ¬ q1 > MAX_QUANTITY := by simp only [MAX_QUANTITY]; omega
  have hq2 : ¬ q2 > MAX_QUANTITY := by simp only [MAX_QUANTITY]; omega
  have hr1 := add_to_cart_fresh s pid q1 prod hprod hno hq1
  have hprod1 : findProduct
      ({ s with cart := (s.cart ++
        [{ id := nextCartId s, user_id := 1, product_id := pid, quantity := q1 }]) }) pid =
      some prod := hprod
  have hfind1 : List.find? (fun c => c.user_id == 1 && c.product_id == pid)
      (s.cart ++ [{ id := nextCartId s, user_id := 1, product_id := pid, quantity := q1 }]) =
      some { id := nextCartId s, user_id := 1, product_id := pid, quantity := q1 } := by
    rw [find?_append_of_not _ _ _ hno]
    simp
  have hmerge : ¬ (q1 + q2 > MAX_QUANTITY) := by simp only [MAX_QUANTITY]; omega
  have hupd : updateFirst (fun c => c.user_id == 1 && c.product_id == pid)
      (fun c => { c with quantity := q1 + q2 })
      (s.cart ++ [{ id := nextCartId s, user_id := 1, product_id := pid, quantity := q1 }]) =
      s.cart ++ [{ id := nextCartId s, user_id := 1, product_id := pid, quantity := q1 + q2 }] := by
    rw [updateFirst_append_of_not _ _ _ _ hno]
    simp [updateFirst]
  refine ⟨by rw [hr1]; rfl, ?_, ?_⟩
  · rw [hr1]
    simp [add_to_cart, hq2, hprod1, hfind1, hmerge, errStatus]
  · rw [hr1]
    have hcart : (add_to_cart
        ({ s with cart := (s.cart ++
          [{ id := nextCartId s, user_id := 1, product_id := pid, quantity := q1 }]) }) pid q2).1.cart =
        s.cart ++ [{ id := nextCartId s, user_id := 1, product_id := pid, quantity := q1 + q2 }] := by
      rw [show (add_to_cart
        ({ s with cart := (s.cart ++
          [{ id := nextCartId s, user_id := 1, product_id := pid, quantity := q1 }]) }) pid q2).1.cart =
        updateFirst (fun c => c.user_id == 1 && c.product_id == pid)
          (fun c => { c with quantity := q1 + q2 })
          (s.cart ++ [{ id := nextCartId s, user_id := 1, product_id := pid, quantity := q1 }])
        from by simp [add_to_cart, hq2, hprod1, hfind1, hmerge]]
      exact hupd
    rw [hcart, List.filter_append]
    rw [List.filter_eq_nil_iff.mpr (fun x hx => by simp [hno x hx])]
    simp

/-- Witness for `add_then_add_merges`: adding 2 then 3 of product 1 to the
empty cart gives one line of quantity 5. -/
theorem add_then_add_merges_witness :
    errStatus (add_to_cart baseState 1 2).2 = none ∧
    errStatus (add_to_cart (add_to_cart baseState 1 2).1 1 3).2 = none ∧
    ((add_to_cart (add_to_cart baseState 1 2).1 1 3).1.cart.filter
        (fun c => c.user_id == 1 && c.product_id == 1)) =
      [{ id := nextCartId baseState, user_id := 1, product_id := 1, quantity := 2 + 3 }] :=
  add_then_add_merges baseState 1 2 3 (by decide) (by decide) (by decide)
    (by decide) (by decide)

/-- C6: after a first AddItem of q1 in [1, 99] succeeds for a product with
no prior (user 1, product) line, a second AddItem of q2 with q1 + q2 > 99
fails with ValidationError (400), the second call changes nothing, and the
stored quantity for (user 1, product) remains q1 — no clamping, no partial
update, no new line. -/
theorem second_add_overflow_rejected (s : State) (pid : Nat) (q1 q2 : Int)
    (hp : (findProduct s pid).isSome = true)
    (hno : ∀ c ∈ s.cart, (c.user_id == 1 && c.product_id == pid) = false)
    (h1 : 1 ≤ q1) (h99 : q1 ≤ 99) (hsum : q1 + q2 > 99) :
    errStatus (add_to_cart s pid q1).2 = none ∧
    errStatus (add_to_cart (add_to_cart s pid q1).1 pid q2).2 = some 400 ∧
    (add_to_cart (add_to_cart s pid q1).1 pid q2).1 = (add_to_cart s pid q1).1 ∧
    ((add_to_cart (add_to_cart s pid q1).1 pid q2).1.cart.filter
        (fun c => c.user_id == 1 && c.product_id == pid)) =
      [{ id := nextCartId s, user_id := 1, product_id := pid, quantity := q1 }] := by
  obtain ⟨prod, hprod⟩ := Option.isSome_iff_exists.mp hp
  have hq1 : ¬ q1 > MAX_QUANTITY := by simp only [MAX_QUANTITY]; omega
  have hr1 := add_to_cart_fresh s pid q1 prod hprod hno hq1
  have hfilter1 : List.filter (fun c => c.user_id == 1 && c.product_id == pid)
      (s.cart ++ [{ id := nextCartId s, user_id := 1, product_id := pid, quantity := q1 }]) =
      [{ id := nextCartId s, user_id := 1, product_id := pid, quantity := q1 }] := by
    rw [List.filter_append,
      List.filter_eq_nil_iff.mpr (fun x hx => by simp [hno x hx])]
    simp
  have hsecond : errStatus (add_to_cart (add_to_cart s pid q1).1 pid q2).2 = some 400 ∧
      (add_to_cart (add_to_cart s pid q1).1 pid q2).1 = (add_to_cart s pid q1).1 := by
    by_cases hq2 : q2 > MAX_QUANTITY
    · rw [hr1]
      exact ⟨by simp [add_to_cart, hq2, errStatus], by simp [add_to_cart, hq2]⟩
    · have hprod1 : findProduct
          ({ s with cart := (s.cart ++
            [{ id := nextCartId s, user_id := 1, product_id := pid, quantity := q1 }]) }) pid =
          some prod := hprod
      have hfind1 : List.find? (fun c => c.user_id == 1 && c.product_id == pid)
          (s.cart ++ [{ id := nextCartId s, user_id := 1, product_id := pid, quantity := q1 }]) =
          some { id := nextCartId s, user_id := 1, product_id := pid, quantity := q1 } := by
        rw [find?_append_of_not _ _ _ hno]
        simp
      have hmerge : q1 + q2 > MAX_QUANTITY := by simp only [MAX_QUANTITY]; omega
      rw [hr1]
      constructor
      · simp [add_to_cart, hq2, hprod1, hfind1, hmerge, errStatus]
      · simp [add_to_cart, hq2, hprod1, hfind1, hmerge]
  refine ⟨by rw [hr1]; rfl, hsecond.1, hsecond.2, ?_⟩
  rw [hsecond.2, hr1]
  exact hfilter1

/-- Witness for `second_add_overflow_rejected`: add 50 of product 1, then
60 — the second call fails and the stored quantity stays 50. -/
theorem second_add_overflow_rejected_witness :
    errStatus (add_to_cart baseState 1 50).2 = none ∧
    errStatus (add_to_cart (add_to_cart baseState 1 50).1 1 60).2 = some 400 ∧
    (add_to_cart (add_to_cart baseState 1 50).1 1 60).1 = (add_to_cart baseState 1 50).1 ∧
    ((add_to_cart (add_to_cart baseState 1 50).1 1 60).1.cart.filter
        (fun c => c.user_id == 1 && c.product_id == 1)) =
      [{ id := nextCartId baseState, user_id := 1, product_id := 1, quantity := 50 }] :=
  second_add_overflow_rejected baseState 1 50 60 (by decide) (by decide)
    (by decide) (by decide) (by decide)

/-! ### Claim C4 — checkout on a non-empty cart -/

/-- C4 counterexample: with lines of two users in the cart store, user 1's
cart is non-empty, yet the order total is 30 — the sum over ALL cart lines —
while the per-user sum the claim requires is 20. -/
theorem checkout_total_includes_other_users :
    get_cart mixedCartState ≠ [] ∧
    (create_order mixedCartState).2.toOption.map Order.total_price = some 30 ∧
    userCartTotal mixedCartState 1 = 20 ∧
    (30 : Rat) ≠ 20 := by
  refine ⟨by decide, ?_, ?_, by norm_num⟩
  · simp [create_order, mixedCartState, baseState, totalOfLines, linePrice,
      findProduct, line1, fishProduct, Except.toOption]
    norm_num
  · simp [userCartTotal, mixedCartState, baseState, totalOfLines, linePrice,
      findProduct, line1, fishProduct]
    norm_num

/-- C4 (amended): when the cart store is non-empty, Checkout creates exactly
one new Order, appended to the order store, owned by user 1, with status
"pending", whose total is the sum of (product price at checkout time ×
quantity) over ALL cart lines in the store — not only the given user's —
and afterwards ListItems returns zero lines (the whole cart table is
cleared). -/
theorem checkout_nonempty_creates_order (s : State) (h : s.cart ≠ []) :
    ∃ o : Order,
      (create_order s).2 = .ok o ∧
      (create_order s).1.orders = s.orders ++ [o] ∧
      o.status = "pending" ∧
      o.user_id = 1 ∧
      o.total_price = totalOfLines s s.cart ∧
      get_cart (create_order s).1 = [] ∧
      (create_order s).1.cart = [] := by
  have hne : ¬ s.cart.isEmpty = true := by simp [List.isEmpty_iff, h]
  refine ⟨({ id := nextOrderId s, user_id := 1,
             total_price := totalOfLines s s.cart,
             status := "pending", created_at := s.now } : Order),
    ?_, ?_, rfl, rfl, rfl, ?_, ?_⟩
  · simp [create_order, hne]
  · simp [create_order, hne]
  · simp [create_order, hne, get_cart]
  · simp [create_order, hne]

/-- Witness for `checkout_nonempty_creates_order` at `oneLineState`. -/
theorem checkout_nonempty_creates_order_witness :
    oneLineState.cart ≠ [] ∧
    ∃ o : Order,
      (create_order oneLineState).2 = .ok o ∧
      (create_order oneLineState).1.orders = oneLineState.orders ++ [o] ∧
      o.status = "pending" ∧
      o.user_id = 1 ∧
      o.total_price = totalOfLines oneLineState oneLineState.cart ∧
      get_cart (create_order oneLineState).1 = [] ∧
      (create_order oneLineState).1.cart = [] :=
  ⟨by decide, checkout_nonempty_creates_order oneLineState (by decide)⟩

end NorthFish
